import Mathlib

/-!
Verification of the Current-Monitor core (`src/cur_raw.py`) against its
natural-language specification.

The embedding below translates the algorithmic core of `cur_raw.py`:
the Modbus frame codec (`calculate_crc`, `build_request`, `parse_response`,
`recv_data`), the IEEE-754 single-precision register decoder (`hex2float`),
the per-channel charge integrator inside `RealTimePlotApp.update_data`,
and the `StatusMonitor` state machine (`process`, `update_params`).

Modelling conventions:
* Python integers are `ℕ` (arbitrary precision, as in Python).
* Python floats are modelled by `FVal`: either NaN, a signed infinity, or an
  exact rational.  Finite float arithmetic is idealised as exact rational
  arithmetic; the NaN/infinity propagation and comparison rules follow IEEE
  semantics exactly as Python implements them (every comparison with NaN is
  false).  The `Decimal` accumulator (context precision 15, `cur_raw.py`
  line 49) is likewise modelled as exact arithmetic; `Decimal(str(x))` on a
  non-finite float yields a `Decimal` NaN/Infinity, which `FVal` captures.
* Mutating methods become state-passing functions returning the new state.
* `time.time()` calls are replaced by an explicit `now : ℚ` parameter.
-/

/-- Model of a Python float value: NaN, a signed infinity (`true` = negative),
or a finite value idealised as an exact rational. -/
inductive FVal where
  | nan : FVal
  | inf : Bool → FVal
  | num : ℚ → FVal
deriving DecidableEq

/-- Python `abs` on a float: `abs(nan) = nan`, `abs(±inf) = +inf`. -/
def fabs : FVal → FVal
  | FVal.nan => FVal.nan
  | FVal.inf _ => FVal.inf false
  | FVal.num a => FVal.num (if a < 0 then -a else a)

/-- Python unary minus on a float. -/
def fneg : FVal → FVal
  | FVal.nan => FVal.nan
  | FVal.inf s => FVal.inf (!s)
  | FVal.num a => FVal.num (-a)

/-- Python float addition: NaN propagates, `inf + (-inf) = nan`. -/
def fadd : FVal → FVal → FVal
  | FVal.nan, _ => FVal.nan
  | _, FVal.nan => FVal.nan
  | FVal.inf s, FVal.inf t => if s = t then FVal.inf s else FVal.nan
  | FVal.inf s, FVal.num _ => FVal.inf s
  | FVal.num _, FVal.inf t => FVal.inf t
  | FVal.num a, FVal.num b => FVal.num (a + b)

/-- Python float subtraction, as addition of the negation (IEEE-equivalent). -/
def fsub (a b : FVal) : FVal := fadd a (fneg b)

/-- Python float multiplication by a finite constant `q` (unit factors, `/2.0`,
`*100.0`, `*Δt`): NaN propagates, `±inf * 0 = nan`, otherwise the sign rule. -/
def fmulQ : FVal → ℚ → FVal
  | FVal.nan, _ => FVal.nan
  | FVal.inf s, q => if 0 < q then FVal.inf s else if q < 0 then FVal.inf (!s) else FVal.nan
  | FVal.num a, q => FVal.num (a * q)

/-- Python float division.  A zero finite denominator raises
`ZeroDivisionError` in Python; every call site in the source guards against
it (`len(history) >= 2`, `avg_val > 1e-9`), so the `nan` returned here for
that case is unreachable on the modelled paths. -/
def fdivF : FVal → FVal → FVal
  | FVal.nan, _ => FVal.nan
  | _, FVal.nan => FVal.nan
  | FVal.inf _, FVal.inf _ => FVal.nan
  | FVal.inf s, FVal.num q => if q = 0 then FVal.nan else if 0 < q then FVal.inf s else FVal.inf (!s)
  | FVal.num _, FVal.inf _ => FVal.num 0
  | FVal.num a, FVal.num q => if q = 0 then FVal.nan else FVal.num (a / q)

/-- Python `x < l` for a float `x` and finite literal `l`: false when `x` is
NaN. -/
def flt : FVal → ℚ → Bool
  | FVal.nan, _ => false
  | FVal.inf s, _ => s
  | FVal.num a, l => decide (a < l)

/-- Python `x > l` for a float `x` and finite literal `l`: false when `x` is
NaN (this is what lets a NaN sample slip past the threshold filter). -/
def fgt : FVal → ℚ → Bool
  | FVal.nan, _ => false
  | FVal.inf s, _ => !s
  | FVal.num a, l => decide (l < a)

/-- Python `sum` over a list of floats (starts from the integer 0). -/
def fsum (l : List FVal) : FVal := l.foldl fadd (FVal.num 0)

/-- One bit-iteration of the CRC inner loop (`cur_raw.py` lines 62-67):
if the low bit is set, shift right and XOR with `0xA001`, else just shift. -/
def crcRoundBit (crc : ℕ) : ℕ :=
  if crc % 2 = 1 then (crc / 2) ^^^ 0xA001 else crc / 2

/-- Per-byte CRC step (`cur_raw.py` lines 61-67): XOR the byte into the
accumulator, then run 8 bit-iterations. -/
def crcByteStep (crc b : ℕ) : ℕ :=
  Nat.iterate crcRoundBit 8 (crc ^^^ b)

/-- `calculate_crc(data)` (`cur_raw.py` lines 58-68): Modbus CRC-16 with
accumulator initialised to `0xFFFF`. -/
def calculate_crc (data : List ℕ) : ℕ :=
  data.foldl crcByteStep 0xFFFF

/-- Big-endian serialization of one `u16` field, as `struct.pack` with format
character H emits for an in-range value (out-of-range values raise in Python;
the masks make the Lean function total and agree with Python on `n < 65536`). -/
def u16be (n : ℕ) : List ℕ := [n / 256 % 256, n % 256]

/-- `build_request(slave_address, function_code, start_address, quantity)`
(`cur_raw.py` lines 71-75): pack the four fields big-endian with layout
u8 u8 u16 u16, then append the CRC low byte first. -/
def build_request (slave_address function_code start_address quantity : ℕ) : List ℕ :=
  let request := [slave_address % 256, function_code % 256] ++ u16be start_address ++ u16be quantity
  let crc := calculate_crc request
  request ++ [crc % 256, crc / 256]

/-- Grouping of payload bytes into big-endian 16-bit registers
(`cur_raw.py` lines 85-88): `int.from_bytes(data[i:i+2], byteorder=big)` for
`i = 0, 2, 4, ...`; a trailing single byte forms a 1-byte register. -/
def toRegisters : List ℕ → List ℕ
  | [] => []
  | [b] => [b]
  | b1 :: b2 :: rest => (b1 * 256 + b2) :: toRegisters rest

/-- `parse_response(response)` (`cur_raw.py` lines 78-90): returns the slave
address, function code, and the register list read from `byte_count` payload
bytes.  (Python would raise `IndexError` on fewer than 3 bytes; `getD 0`
stands in — the only caller checks the length first.) -/
def parse_response (response : List ℕ) : ℕ × ℕ × List ℕ :=
  (response.getD 0 0, response.getD 1 0,
   toRegisters ((response.drop 3).take (response.getD 2 0)))

/-- `recv_data(channel)` (`cur_raw.py` lines 1353-1386), abstracted over the
bytes delivered by the transport: fewer than 9 bytes returns `None`; a parsed
register count other than 2 raises `ValueError`, caught by the enclosing
handler which returns `None`; otherwise the two registers are combined as
`(registers[0] << 16) | registers[1]`, the 32-bit pattern later fed to
`hex2float`.  We return the pattern itself; decoding is `decode32`. -/
def recv_data (response : List ℕ) : Option ℕ :=
  if response.length < 9 then none
  else
    let regs := (parse_response response).2.2
    if regs.length ≠ 2 then none
    else some ((regs.getD 0 0) <<< 16 ||| regs.getD 1 0)

/-- `hex2float` (`cur_raw.py` lines 94-98): reinterpret a 32-bit pattern as an
IEEE-754 single-precision float via a ctypes bit-cast.  Exponent 255 encodes
infinity (zero fraction) or NaN; exponent 0 encodes subnormals
`±frac·2^-149`; otherwise `±(2^23+frac)·2^(e-150)`. -/
def decode32 (w : ℕ) : FVal :=
  let sign : ℕ := w / 2 ^ 31 % 2
  let expo : ℕ := w / 2 ^ 23 % 2 ^ 8
  let frac : ℕ := w % 2 ^ 23
  if expo = 255 then
    if frac = 0 then FVal.inf (sign = 1) else FVal.nan
  else
    let mag : ℚ :=
      if expo = 0 then (frac : ℚ) / 2 ^ 149
      else ((2 ^ 23 + frac : ℕ) : ℚ) * 2 ^ expo / 2 ^ 150
    FVal.num (if sign = 1 then -mag else mag)

/-- Warning / status codes of `StatusMonitor` (`cur_raw.py` lines 239-355).
The stored `warning_state` string only ever holds RUN, PEAK, DROP, ZERO or
STOP; OFF and INIT occur as return values of `process`. -/
inductive WState where
  | RUN | PEAK | DROP | ZERO | STOP | OFF | INIT
deriving DecidableEq

/-- Spike-detection mode (`cur_raw.py` line 249: value or percent). -/
inductive SpikeMode where
  | value | percent
deriving DecidableEq

/-- State of one `StatusMonitor` instance (`cur_raw.py` lines 239-259).
`history` is the deque contents, oldest first; `hmaxlen` its `maxlen`
(`none` for the initial unbounded `deque()`). -/
structure StatusMonitor where
  enabled : Bool
  history : List FVal
  hmaxlen : Option ℕ
  window_seconds : ℚ
  sample_interval : ℚ
  zero_threshold : ℚ
  spike_mode : SpikeMode
  spike_threshold : ℚ
  spike_percent : ℚ
  hold_time : ℚ
  warning_state : WState
  warning_end_time : ℚ
  is_running : Bool
deriving DecidableEq

/-- Field values set by `StatusMonitor.__init__` (`cur_raw.py` lines 240-259):
window 10 s, interval 0.1 s, zero threshold 0.0001, percent mode with 50 %,
value threshold 0.5, hold 10 s, state RUN, not running. -/
def StatusMonitor.init : StatusMonitor :=
  { enabled := true
    history := []
    hmaxlen := none
    window_seconds := 10
    sample_interval := 1 / 10
    zero_threshold := 1 / 10000
    spike_mode := SpikeMode.percent
    spike_threshold := 1 / 2
    spike_percent := 50
    hold_time := 10
    warning_state := WState.RUN
    warning_end_time := 0
    is_running := false }

/-- `deque.append` with a `maxlen`: at capacity the oldest (leftmost) entry is
evicted. -/
def dequeAppend (maxlen : Option ℕ) (h : List FVal) (x : FVal) : List FVal :=
  match maxlen with
  | none => h ++ [x]
  | some m => (h ++ [x]).drop (h.length + 1 - m)

/-- Python `int(q)`: truncation toward zero. -/
def pyInt (q : ℚ) : ℤ :=
  if q < 0 then -Int.floor (-q) else Int.floor q

/-- `StatusMonitor.update_params(interval_ms)` (`cur_raw.py` lines 279-290):
recomputes the deque capacity as `int(window_seconds / sample_interval)`
clamped below by 1, and when the capacity changes rebuilds the deque from the
old contents (keeping the most recent entries). -/
def StatusMonitor.update_params (m : StatusMonitor) (interval_ms : ℚ) : StatusMonitor :=
  let si := interval_ms / 1000
  let n0 := pyInt (m.window_seconds / si)
  let new_maxlen : ℕ := if n0 < 1 then 1 else n0.toNat
  if m.hmaxlen ≠ some new_maxlen then
    { m with sample_interval := si
             hmaxlen := some new_maxlen
             history := m.history.drop (m.history.length - new_maxlen) }
  else
    { m with sample_interval := si }

/-- The spike test of `StatusMonitor.process` (`cur_raw.py` lines 325-343),
evaluated against the mean of the current history: returns the triggered
state, or `none` when no trigger fires (also when the percent-mode guard
`avg_val > 1e-9` fails). -/
def triggerOf (m : StatusMonitor) (abs_val : FVal) : Option WState :=
  let avg_val := fdivF (fsum m.history) (FVal.num m.history.length)
  let diff := fsub abs_val avg_val
  match m.spike_mode with
  | SpikeMode.value =>
    if fgt diff m.spike_threshold then some WState.PEAK
    else if flt diff (-m.spike_threshold) then some WState.DROP
    else none
  | SpikeMode.percent =>
    if fgt avg_val (1 / 10 ^ 9) then
      let pct := fmulQ (fdivF diff avg_val) 100
      if fgt pct m.spike_percent then some WState.PEAK
      else if flt pct (-m.spike_percent) then some WState.DROP
      else none
    else none

/-- `StatusMonitor.process(current_val)` (`cur_raw.py` lines 292-355), with the
internal `time.time()` call made an explicit `now` parameter.  Returns the
status string together with the mutated monitor state. -/
def StatusMonitor.process (m : StatusMonitor) (now : ℚ) (current_val : FVal) :
    WState × StatusMonitor :=
  if !m.enabled then (WState.OFF, m)
  else if !m.is_running then (WState.STOP, m)
  else
    let abs_val := fabs current_val
    let w1 :=
      if (m.warning_state = WState.PEAK ∨ m.warning_state = WState.DROP) ∧
          m.warning_end_time < now then
        WState.RUN
      else m.warning_state
    let m1 := { m with warning_state := w1 }
    if flt abs_val m.zero_threshold then
      (WState.ZERO, { m1 with warning_state := WState.ZERO })
    else if m.history.length < 2 then
      let m2 := { m1 with history := dequeAppend m.hmaxlen m.history abs_val }
      (if w1 ≠ WState.RUN then w1 else WState.INIT, m2)
    else
      let m2 :=
        match triggerOf m1 abs_val with
        | some t => { m1 with warning_state := t, warning_end_time := now + m.hold_time }
        | none => m1
      let m3 := { m2 with history := dequeAppend m.hmaxlen m.history abs_val }
      (m3.warning_state, m3)

/-- `StatusMonitor.clear_warning()` (`cur_raw.py` lines 274-277). -/
def StatusMonitor.clear_warning (m : StatusMonitor) : StatusMonitor :=
  { m with warning_state := WState.RUN, warning_end_time := 0 }

/-- Per-channel view of the integrator state kept by `RealTimePlotApp`:
the `Decimal` accumulator `column_int`, the previous mA value
`last_current`, and the shared previous tick time `last_time`. -/
structure Integrator where
  column_int : FVal
  last_current : Option FVal
  last_time : Option ℚ
deriving DecidableEq

/-- Integrator state right after `start_monitoring` (`cur_raw.py` lines
1460-1465): charge `Decimal 0.0`, no previous current, and `last_time` set to
the session start time (not cleared to absent). -/
def integStart (startTime : ℚ) : Integrator :=
  { column_int := FVal.num 0, last_current := none, last_time := some startTime }

/-- The charge contribution of one accumulating step (`cur_raw.py` lines
2218-2223 and 2226-2231): trapezoidal `((last + value)/2)·Δt` when a previous
current exists, rectangular `value·Δt` otherwise. -/
def integContrib (last_current : Option FVal) (value : FVal) (delta_t : ℚ) : FVal :=
  match last_current with
  | some lc => fmulQ (fmulQ (fadd lc value) (1 / 2)) delta_t
  | none => fmulQ value delta_t

/-- One integration step of `update_data` (`cur_raw.py` lines 2213-2236) seen
from a single channel: when a previous time exists and `Δt > 0`, add
`integContrib`; in every case overwrite `last_current` and `last_time` with
the new sample (those two assignments sit after and outside the `Δt > 0`
branch in the source). -/
def integStep (s : Integrator) (value : FVal) (now : ℚ) : Integrator :=
  let s1 :=
    match s.last_time with
    | none => s
    | some lt =>
      if 0 < now - lt then
        { s with column_int := fadd s.column_int (integContrib s.last_current value (now - lt)) }
      else s
  { s1 with last_current := some value, last_time := some now }

/-- The `RealTimePlotApp` state read and written by `update_data`
(`cur_raw.py` lines 2165-2345): run flag, channel mode, unit factors
(`unit_factors[unit_ch]`), mA ceilings, the two charge accumulators with
their previous samples, the shared previous tick time, and the two status
monitors. -/
structure AppState where
  run_stat : Bool
  single_channel_mode : Bool
  factor1 : ℚ
  factor2 : ℚ
  limit_ch1_ma : ℚ
  limit_ch2_ma : ℚ
  column_int1 : FVal
  column_int2 : FVal
  last_current1 : Option FVal
  last_current2 : Option FVal
  last_time : Option ℚ
  monitor1 : StatusMonitor
  monitor2 : StatusMonitor
deriving DecidableEq

/-- One tick of `RealTimePlotApp.update_data` (`cur_raw.py` lines 2165-2345),
abstracted over the transport bytes of the two channels and the clock.
Returns the new state together with a flag recording whether the tick reached
step 9 (`write_data_row`) — i.e. whether a data row was emitted — which is
`false` exactly on the early-return (sample-skipping) paths. -/
def update_data (st : AppState) (resp1 resp2 : List ℕ) (now : ℚ) :
    AppState × Bool :=
  if !st.run_stat then (st, false)
  else
    let current1? := (recv_data resp1).map decode32
    let current2? : Option FVal :=
      if st.single_channel_mode then some (FVal.num 0)
      else (recv_data resp2).map decode32
    match current1?, current2? with
    | none, _ => (st, false)
    | some _, none => (st, false)
    | some current1, some current2 =>
      let current1_ma := fmulQ current1 st.factor1
      let current2_ma :=
        if st.single_channel_mode then FVal.num 0 else fmulQ current2 st.factor2
      if fgt current1_ma st.limit_ch1_ma || fgt current2_ma st.limit_ch2_ma then
        (st, false)
      else
        let i1 := integStep ⟨st.column_int1, st.last_current1, st.last_time⟩ current1_ma now
        let int2 :=
          if st.single_channel_mode then st.column_int2
          else (integStep ⟨st.column_int2, st.last_current2, st.last_time⟩ current2_ma now).column_int
        let p1 := st.monitor1.process now current1
        let mon2 :=
          if st.single_channel_mode then st.monitor2
          else (st.monitor2.process now current2).2
        ({ st with
            column_int1 := i1.column_int
            column_int2 := int2
            last_current1 := some current1_ma
            last_current2 := some current2_ma
            last_time := some now
            monitor1 := p1.2
            monitor2 := mon2 }, true)

/-! ### Concrete states and inputs used by the theorems below -/

/-- The six payload bytes of a request, laid out as the specification words
them: address and function as single bytes, then start and count big-endian
(high byte first).  This is the spec-side description, to be compared with
`build_request` from the source. -/
def specSerializeBE (address function_code start count : ℕ) : List ℕ :=
  [address, function_code, start / 256, start % 256, count / 256, count % 256]

/-- An 8-byte (short) transport read. -/
def short8 : List ℕ := [1, 3, 4, 0, 1, 0, 2, 0]

/-- A 9-byte response whose byte count field announces 6 payload bytes,
hence 3 registers: structurally malformed for a 2-register read. -/
def bad9 : List ℕ := [1, 3, 6, 0, 1, 0, 2, 0, 0]

/-- A well-formed 9-byte response: byte count 4, registers `0x0001` and
`0x0002`, giving the 32-bit pattern `0x00010002 = 65538`. -/
def good9 : List ℕ := [1, 3, 4, 0, 1, 0, 2, 0, 0]

/-- A well-formed 9-byte response whose registers `0x7FC0` and `0x0000`
carry the quiet-NaN bit pattern `0x7FC00000`. -/
def nanFrame : List ℕ := [1, 3, 4, 127, 192, 0, 0, 0, 0]

/-- A monitor that is enabled and running, with the spec's example zero
threshold `0.1`, percent mode at 50 %, and a stable history around `10.0`. -/
def mZeroDemo : StatusMonitor :=
  { StatusMonitor.init with
      is_running := true
      zero_threshold := 1 / 10
      history := [FVal.num 10, FVal.num 10]
      hmaxlen := some 100 }

/-- The monitor `mZeroDemo` one tick after a PEAK was triggered at time 0
with the default 10-second hold: held PEAK, expiry 10, the anomalous sample
appended to the history. -/
def mHeldDemo : StatusMonitor :=
  { mZeroDemo with
      warning_state := WState.PEAK
      warning_end_time := 10
      history := [FVal.num 10, FVal.num 10, FVal.num 16] }

/-- A monitor whose deque is at its capacity of 100 with entries 0..99
(oldest first), window 10 s. -/
def mShrink : StatusMonitor :=
  { StatusMonitor.init with
      hmaxlen := some 100
      history :=
   [ FVal.num 0, FVal.num 1, FVal.num 2, FVal.num 3, FVal.num 4, FVal.num 5,
    FVal.num 6, FVal.num 7, FVal.num 8, FVal.num 9, FVal.num 10, FVal.num 11,
    FVal.num 12, FVal.num 13, FVal.num 14, FVal.num 15, FVal.num 16,
    FVal.num 17, FVal.num 18, FVal.num 19, FVal.num 20, FVal.num 21,
    FVal.num 22, FVal.num 23, FVal.num 24, FVal.num 25, FVal.num 26,
    FVal.num 27, FVal.num 28, FVal.num 29, FVal.num 30, FVal.num 31,
    FVal.num 32, FVal.num 33, FVal.num 34, FVal.num 35, FVal.num 36,
    FVal.num 37, FVal.num 38, FVal.num 39, FVal.num 40, FVal.num 41,
    FVal.num 42, FVal.num 43, FVal.num 44, FVal.num 45, FVal.num 46,
    FVal.num 47, FVal.num 48, FVal.num 49, FVal.num 50, FVal.num 51,
    FVal.num 52, FVal.num 53, FVal.num 54, FVal.num 55, FVal.num 56,
    FVal.num 57, FVal.num 58, FVal.num 59, FVal.num 60, FVal.num 61,
    FVal.num 62, FVal.num 63, FVal.num 64, FVal.num 65, FVal.num 66,
    FVal.num 67, FVal.num 68, FVal.num 69, FVal.num 70, FVal.num 71,
    FVal.num 72, FVal.num 73, FVal.num 74, FVal.num 75, FVal.num 76,
    FVal.num 77, FVal.num 78, FVal.num 79, FVal.num 80, FVal.num 81,
    FVal.num 82, FVal.num 83, FVal.num 84, FVal.num 85, FVal.num 86,
    FVal.num 87, FVal.num 88, FVal.num 89, FVal.num 90, FVal.num 91,
    FVal.num 92, FVal.num 93, FVal.num 94, FVal.num 95, FVal.num 96,
    FVal.num 97, FVal.num 98, FVal.num 99] }

/-- A freshly started single-channel application state at session start time
0: mA unit (factor 1), default 1000 mA ceilings, zero charge, no previous
currents. -/
def stSingleDemo : AppState :=
  { run_stat := true
    single_channel_mode := true
    factor1 := 1
    factor2 := 1
    limit_ch1_ma := 1000
    limit_ch2_ma := 1000
    column_int1 := FVal.num 0
    column_int2 := FVal.num 0
    last_current1 := none
    last_current2 := none
    last_time := some 0
    monitor1 := StatusMonitor.init
    monitor2 := StatusMonitor.init }

/-- The same application state in dual-channel mode. -/
def stDualDemo : AppState :=
  { stSingleDemo with single_channel_mode := false }

/-! ### Claim theorems -/

set_option maxRecDepth 10000 in
/-- C6: `build_request` is a pure function that serializes address, function,
start and count big-endian (u8 u8 u16 u16), appends the Modbus CRC-16 of
those six bytes stored little-endian (low byte first), and on the fixed
request `(1, 3, 42, 2)` produces the deterministic 8-byte frame
`01 03 00 2A 00 02 E5 C3`. -/
theorem build_request_layout_golden :
    (∀ address function_code start count : ℕ,
        address < 256 → function_code < 256 → start < 65536 → count < 65536 →
        build_request address function_code start count =
          specSerializeBE address function_code start count ++
            [calculate_crc (specSerializeBE address function_code start count) % 256,
             calculate_crc (specSerializeBE address function_code start count) / 256]) ∧
    build_request 1 3 42 2 = [1, 3, 0, 42, 0, 2, 229, 195] := by
  constructor
  · intro a f s c ha hf hs hc
    have hs2 : s / 256 < 256 := Nat.div_lt_of_lt_mul (by omega)
    have hc2 : c / 256 < 256 := Nat.div_lt_of_lt_mul (by omega)
    simp [build_request, u16be, specSerializeBE, Nat.mod_eq_of_lt, ha, hf, hs2, hc2]
  · rfl

/-- Witness for C6: the layout theorem applied at the fixed request
`(1, 3, 42, 2)`. -/
theorem build_request_layout_golden_witness :
    build_request 1 3 42 2 =
      specSerializeBE 1 3 42 2 ++
        [calculate_crc (specSerializeBE 1 3 42 2) % 256,
         calculate_crc (specSerializeBE 1 3 42 2) / 256] :=
  build_request_layout_golden.1 1 3 42 2 (by decide) (by decide) (by decide) (by decide)

/-- C7 counterexample: an 8-byte (short) read and a 9-byte frame announcing
3 registers both make the poll return `None` — the two failure kinds are NOT
distinguishable in the poll's result, refuting the claim's last conjunct. -/
theorem poll_failures_same_result_cex :
    short8.length < 9 ∧ (parse_response bad9).2.2.length = 3 ∧
    recv_data short8 = none ∧ recv_data bad9 = none ∧
    recv_data short8 = recv_data bad9 := by
  refine ⟨by decide, by decide, by decide, by decide, by decide⟩

/-- C7 amended: a poll that receives fewer than 9 bytes yields no sample
(`None`), and a poll whose parsed register count is not exactly 2 also yields
no sample (`None`); both failures are non-fatal, but they are reported
identically in the poll's result (distinguished only in printed
diagnostics). -/
theorem poll_failures_yield_none_amended :
    ∀ response : List ℕ,
      (response.length < 9 → recv_data response = none) ∧
      (9 ≤ response.length → (parse_response response).2.2.length ≠ 2 →
        recv_data response = none) := by
  intro response
  constructor
  · intro h
    simp [recv_data, h]
  · intro h9 hreg
    simp [recv_data, Nat.not_lt.mpr h9, hreg]

/-- Witness for C7 amended: both failure kinds evaluated on concrete
responses. -/
theorem poll_failures_yield_none_amended_witness :
    recv_data short8 = none ∧ recv_data bad9 = none :=
  ⟨(poll_failures_yield_none_amended short8).1 (by decide),
   (poll_failures_yield_none_amended bad9).2 (by decide) (by decide)⟩

/-- C1: with a prior sample and a positive time delta, one integration step
adds exactly `((last_value + value)/2) · Δt` to the accumulator; and from a
fresh session started at time 0, the samples `(2,0), (2,1), (4,2)` accumulate
exactly `5` (trapezoidal, not rectangular). -/
theorem integrator_trapezoidal_step :
    (∀ (s : Integrator) (q lc lt v now : ℚ),
        s.column_int = FVal.num q → s.last_current = some (FVal.num lc) →
        s.last_time = some lt → 0 < now - lt →
        (integStep s (FVal.num v) now).column_int =
          FVal.num (q + (lc + v) / 2 * (now - lt))) ∧
    (integStep (integStep (integStep (integStart 0) (FVal.num 2) 0) (FVal.num 2) 1)
        (FVal.num 4) 2).column_int = FVal.num 5 := by
  constructor
  · intro s q lc lt v now hq hlc hlt hdt
    simp only [integStep, hq, hlc, hlt, if_pos hdt, integContrib, fadd, fmulQ]
    ring_nf
  · norm_num [integStep, integStart, integContrib, fadd, fmulQ]

/-- Witness for C1: the step lemma applied to the state after the first
sample of the spec's trace. -/
theorem integrator_trapezoidal_step_witness :
    (integStep ⟨FVal.num 0, some (FVal.num 2), some 0⟩ (FVal.num 2) 1).column_int =
      FVal.num (0 + (2 + 2) / 2 * (1 - 0)) :=
  integrator_trapezoidal_step.1 ⟨FVal.num 0, some (FVal.num 2), some 0⟩ 0 2 0 2 1
    rfl rfl rfl (by norm_num)

/-- C2 counterexample: after `start_monitoring` at time 0, the very first
sample `(value 2, t = 1)` contributes `2·1 = 2`, not zero — `last_time` is
initialised to the session start time, so the first sample lands in the
rectangular `value·Δt` branch. -/
theorem first_sample_charge_cex :
    (integStep (integStart 0) (FVal.num 2) 1).column_int = FVal.num 2 ∧
    (integStep (integStart 0) (FVal.num 2) 1).column_int ≠ FVal.num 0 := by
  constructor
  · norm_num [integStep, integStart, integContrib, fadd, fmulQ]
  · norm_num [integStep, integStart, integContrib, fadd, fmulQ]

/-- C2 amended: the first sample of a session finds `last_time` equal to the
session start time, so it contributes the rectangular charge
`value · (t − start)` whenever its timestamp is after the start, and zero
only when its timestamp is at or before the session start; in every case it
records the sample as the new `last_value`/`last_time` baseline. -/
theorem first_sample_rectangular_amended :
    ∀ startTime v now : ℚ,
      (integStep (integStart startTime) (FVal.num v) now).column_int =
        FVal.num (if startTime < now then v * (now - startTime) else 0) ∧
      (integStep (integStart startTime) (FVal.num v) now).last_current =
        some (FVal.num v) ∧
      (integStep (integStart startTime) (FVal.num v) now).last_time = some now := by
  intro startTime v now
  refine ⟨?_, rfl, rfl⟩
  by_cases h : 0 < now - startTime
  · rw [integStep]
    simp only [integStart, if_pos h, integContrib, fadd, fmulQ]
    rw [if_pos (by linarith), zero_add]
  · rw [integStep]
    simp only [integStart, if_neg h, integContrib]
    rw [if_neg (by intro hc; exact h (by linarith))]

/-- C5 counterexample: a step with `Δt = 0` (sample at time 5, `last_time`
5) leaves the total unchanged but still overwrites `last_value` with the
stale sample — the `last_value`/`last_time` updates are unconditional, not
confined to the accumulating branch, refuting the claim's no-op framing. -/
theorem stale_tick_updates_baseline_cex :
    (integStep ⟨FVal.num 10, some (FVal.num 3), some 5⟩ (FVal.num 7) 5).column_int =
      FVal.num 10 ∧
    (integStep ⟨FVal.num 10, some (FVal.num 3), some 5⟩ (FVal.num 7) 5).last_current =
      some (FVal.num 7) ∧
    (integStep ⟨FVal.num 10, some (FVal.num 3), some 5⟩ (FVal.num 7) 5).last_current ≠
      some (FVal.num 3) := by
  refine ⟨?_, rfl, ?_⟩
  · norm_num [integStep, integContrib, fadd, fmulQ]
  · norm_num [integStep, integContrib, fadd, fmulQ]

/-- C5 amended: a step whose time delta is `≤ 0` leaves the accumulated
charge unchanged (nothing is summed), but it is not a complete no-op: the
stale sample still overwrites `last_value` and `last_time`, because those
assignments sit outside the `Δt > 0` branch. -/
theorem stale_tick_noop_amended :
    ∀ (s : Integrator) (value : FVal) (lt now : ℚ),
      s.last_time = some lt → now - lt ≤ 0 →
      (integStep s value now).column_int = s.column_int ∧
      (integStep s value now).last_current = some value ∧
      (integStep s value now).last_time = some now := by
  intro s value lt now hlt hdt
  refine ⟨?_, rfl, rfl⟩
  simp only [integStep, hlt, if_neg (not_lt.mpr hdt)]

/-- Witness for C5 amended: applied at the concrete stale tick. -/
theorem stale_tick_noop_amended_witness :
    (integStep ⟨FVal.num 10, some (FVal.num 3), some 5⟩ (FVal.num 7) 5).column_int =
      FVal.num 10 ∧
    (integStep ⟨FVal.num 10, some (FVal.num 3), some 5⟩ (FVal.num 7) 5).last_current =
      some (FVal.num 7) :=
  ⟨(stale_tick_noop_amended ⟨FVal.num 10, some (FVal.num 3), some 5⟩ (FVal.num 7) 5 5
      rfl (by norm_num)).1,
   (stale_tick_noop_amended ⟨FVal.num 10, some (FVal.num 3), some 5⟩ (FVal.num 7) 5 5
      rfl (by norm_num)).2.1⟩

/-- Helper: for a positive interval and nonnegative window,
`update_params` sets the capacity to `max 1 ⌊window / (interval/1000)⌋` and,
when that capacity differs from the current one, resizes the history keeping
the most recent entries. -/
theorem update_params_spec (m : StatusMonitor) (interval_ms : ℚ)
    (hi : 0 < interval_ms) (hw : 0 ≤ m.window_seconds) :
    (m.update_params interval_ms).hmaxlen =
      some (max 1 (Int.toNat ⌊m.window_seconds / (interval_ms / 1000)⌋)) ∧
    (m.hmaxlen ≠ some (max 1 (Int.toNat ⌊m.window_seconds / (interval_ms / 1000)⌋)) →
      (m.update_params interval_ms).history =
        m.history.drop (m.history.length -
          max 1 (Int.toNat ⌊m.window_seconds / (interval_ms / 1000)⌋))) := by
  have hq : 0 ≤ m.window_seconds / (interval_ms / 1000) := div_nonneg hw (by positivity)
  have hpy : pyInt (m.window_seconds / (interval_ms / 1000)) =
      ⌊m.window_seconds / (interval_ms / 1000)⌋ := by
    rw [pyInt, if_neg (not_lt.mpr hq)]
  have hge : (0 : ℤ) ≤ ⌊m.window_seconds / (interval_ms / 1000)⌋ := Int.floor_nonneg.mpr hq
  have hnm : (if ⌊m.window_seconds / (interval_ms / 1000)⌋ < 1 then 1
      else (⌊m.window_seconds / (interval_ms / 1000)⌋).toNat) =
      max 1 (⌊m.window_seconds / (interval_ms / 1000)⌋).toNat := by
    rcases lt_or_le ⌊m.window_seconds / (interval_ms / 1000)⌋ 1 with h | h
    · rw [if_pos h]; omega
    · rw [if_neg (not_lt.mpr h)]; omega
  simp only [StatusMonitor.update_params, hpy, hnm]
  split_ifs with hch
  · exact ⟨rfl, fun _ => rfl⟩
  · exact ⟨(not_not.mp hch).symm ▸ rfl, fun hne => absurd (not_not.mp hch) hne⟩

/-- C9 counterexample: with the default 10-second window, an update interval
of 300 ms gives a recomputed capacity of `int(10/0.3) = 33`, not
`ceil(10/0.3) = 34` — the code truncates (floor), it does not take the
ceiling. -/
theorem window_capacity_not_ceil_cex :
    ((StatusMonitor.init).update_params 300).hmaxlen = some 33 ∧
    ⌈(10 : ℚ) / (300 / 1000)⌉ = 34 ∧
    ((StatusMonitor.init).update_params 300).hmaxlen ≠
      some (Int.toNat ⌈(10 : ℚ) / (300 / 1000)⌉) := by
  have hceil : ⌈(10 : ℚ) / (300 / 1000)⌉ = 34 := by
    rw [Int.ceil_eq_iff]; norm_num
  have hcap := (update_params_spec StatusMonitor.init 300 (by norm_num)
    (by norm_num [StatusMonitor.init])).1
  have hfl : ⌊StatusMonitor.init.window_seconds / ((300 : ℚ) / 1000)⌋ = 33 := by
    norm_num [StatusMonitor.init]
  rw [hfl] at hcap
  have hcap33 : ((StatusMonitor.init).update_params 300).hmaxlen = some 33 := by
    rw [hcap]
    simp only [Option.some.injEq]
    omega
  refine ⟨hcap33, hceil, ?_⟩
  rw [hcap33, hceil]
  simp only [ne_eq, Option.some.injEq]
  omega

/-- C9 amended: `update_params` recomputes the history capacity as
`floor(window_seconds / sample_interval)` (Python `int` truncation), with a
minimum of 1 — not the ceiling — and on a capacity change resizes the
history keeping the most recent entries; concretely, shrinking a full
100-entry history to capacity 10 keeps exactly the 10 most recent values
(90..99), discarding the oldest 90, and growth drops nothing. -/
theorem window_capacity_floor_resize_amended :
    (∀ (m : StatusMonitor) (interval_ms : ℚ),
        0 < interval_ms → 0 ≤ m.window_seconds →
        (m.update_params interval_ms).hmaxlen =
          some (max 1 (Int.toNat ⌊m.window_seconds / (interval_ms / 1000)⌋)) ∧
        (m.hmaxlen ≠ some (max 1 (Int.toNat ⌊m.window_seconds / (interval_ms / 1000)⌋)) →
          (m.update_params interval_ms).history =
            m.history.drop (m.history.length -
              max 1 (Int.toNat ⌊m.window_seconds / (interval_ms / 1000)⌋)))) ∧
    ((mShrink.update_params 1000).hmaxlen = some 10 ∧
      (mShrink.update_params 1000).history =
        [FVal.num 90, FVal.num 91, FVal.num 92, FVal.num 93, FVal.num 94,
         FVal.num 95, FVal.num 96, FVal.num 97, FVal.num 98, FVal.num 99]) := by
  have hfl : ⌊mShrink.window_seconds / ((1000 : ℚ) / 1000)⌋ = 10 := by
    norm_num [mShrink, StatusMonitor.init]
  have h := update_params_spec mShrink 1000 (by norm_num)
    (by norm_num [mShrink, StatusMonitor.init])
  rw [hfl] at h
  refine ⟨fun m i hi hw => update_params_spec m i hi hw, ?_, ?_⟩
  · rw [h.1]
    simp only [Option.some.injEq]
    omega
  · have h2 := h.2 (by simp only [mShrink, ne_eq, Option.some.injEq]; omega)
    rw [h2]
    decide

/-- C3: a sample below `zero_threshold` returns ZERO immediately — the
history and the hold timer are untouched — but after such a ZERO the monitor
does NOT revert to RUN on the next nominal non-zero reading: with a stable
baseline of 10.0 and `zero_threshold = 0.1`, the sample 0.05 yields ZERO and
the following nominal sample 10.0 still yields ZERO (the ZERO state sticks
until a PEAK/DROP trigger or a manual `clear_warning`), contradicting the
code's own comment and the claim. -/
theorem zero_state_sticky_bug :
    (mZeroDemo.process 1 (FVal.num (1 / 20))).1 = WState.ZERO ∧
    (mZeroDemo.process 1 (FVal.num (1 / 20))).2.history = mZeroDemo.history ∧
    (mZeroDemo.process 1 (FVal.num (1 / 20))).2.warning_end_time =
      mZeroDemo.warning_end_time ∧
    ((mZeroDemo.process 1 (FVal.num (1 / 20))).2.process 2 (FVal.num 10)).1 =
      WState.ZERO := by
  refine ⟨?_, ?_, ?_, ?_⟩
  all_goals
    norm_num [mZeroDemo, StatusMonitor.process, StatusMonitor.init, triggerOf,
      fabs, flt, fgt, fsum, fadd, fsub, fneg, fdivF, fmulQ, dequeAppend]
  decide

/-- C10 counterexample: in dual-channel mode, when channel 1's poll fails
(8-byte short read) while channel 2's poll succeeds (`good9` parses to the
pattern 65538), the whole tick is abandoned: the state is returned unchanged
and no data row is emitted — channel 2's successful sample IS suppressed,
refuting the claim's independence of channels.  (A tick in which channel 1
also succeeds does update channel 2's state.) -/
theorem channel_failure_suppresses_other_cex :
    recv_data good9 = some 65538 ∧
    update_data stDualDemo short8 good9 1 = (stDualDemo, false) ∧
    (update_data stDualDemo good9 good9 1).1.last_current2 ≠
      stDualDemo.last_current2 := by
  refine ⟨by decide, ?_, ?_⟩
  · simp [update_data, stDualDemo, stSingleDemo,
      show recv_data short8 = none from by decide]
  · norm_num [update_data, stDualDemo, stSingleDemo,
      show recv_data good9 = some 65538 from by decide,
      decode32, integStep, integContrib, fadd, fmulQ, fgt, flt, fabs,
      StatusMonitor.process, StatusMonitor.init, dequeAppend, triggerOf]
    simp

/-- C10 amended: a failed poll on channel 1 — or, in dual-channel mode, on
channel 2 — aborts the entire tick: no sample is processed for either
channel, all accumulated state (charge integrals, previous samples, monitor
state) is preserved unchanged, no data row is written, and no retry happens
within the tick; the next tick polls again with the same logic.  One
channel's failure therefore DOES suppress the other channel's sample for
that tick. -/
theorem failed_poll_aborts_tick_amended :
    ∀ (st : AppState) (resp1 resp2 : List ℕ) (now : ℚ),
      recv_data resp1 = none ∨
        (st.single_channel_mode = false ∧ recv_data resp2 = none) →
      update_data st resp1 resp2 now = (st, false) := by
  intro st resp1 resp2 now h
  rw [update_data]
  cases hrs : st.run_stat with
  | false => simp
  | true =>
    simp only [Bool.not_true, Bool.false_eq_true, if_false]
    rcases h with h1 | ⟨hs, h2⟩
    · simp [h1]
    · rcases hr1 : recv_data resp1 with _ | p
      · simp
      · simp [hs, h2]

/-- Witness for C10 amended: an empty channel-1 read aborts the tick on the
dual-channel demo state. -/
theorem failed_poll_aborts_tick_amended_witness :
    update_data stDualDemo [] good9 5 = (stDualDemo, false) :=
  failed_poll_aborts_tick_amended stDualDemo [] good9 5 (Or.inl (by decide))

/-- C8: the threshold filter does NOT guard non-finite decoded values: the
quiet-NaN pattern `0x7FC00000` decodes to NaN, a NaN converted value makes
the Python comparison `current_ma > limit` false, so the sample is NOT
discarded — the tick proceeds past the filter, the NaN is integrated
(poisoning the charge accumulator) and a data row is emitted, contradicting
the claim (and the spec's stated intent) for NaN inputs. -/
theorem nan_passes_threshold_filter_bug :
    decode32 0x7FC00000 = FVal.nan ∧
    recv_data nanFrame = some 0x7FC00000 ∧
    fgt (fmulQ FVal.nan stSingleDemo.factor1) stSingleDemo.limit_ch1_ma = false ∧
    (update_data stSingleDemo nanFrame [] 1).2 = true ∧
    (update_data stSingleDemo nanFrame [] 1).1.column_int1 = FVal.nan ∧
    stSingleDemo.column_int1 = FVal.num 0 := by
  refine ⟨by decide, by decide, rfl, ?_, ?_, rfl⟩
  · norm_num [update_data, stSingleDemo,
      show recv_data nanFrame = some 0x7FC00000 from by decide,
      show decode32 0x7FC00000 = FVal.nan from by decide,
      integStep, integContrib, fadd, fmulQ, fgt, flt, fabs,
      StatusMonitor.process, StatusMonitor.init, dequeAppend, triggerOf]
  · norm_num [update_data, stSingleDemo,
      show recv_data nanFrame = some 0x7FC00000 from by decide,
      show decode32 0x7FC00000 = FVal.nan from by decide,
      integStep, integContrib, fadd, fmulQ, fgt, flt, fabs,
      StatusMonitor.process, StatusMonitor.init, dequeAppend, triggerOf]

/-- `triggerOf` reads only the history and the spike settings, so two
monitor states agreeing on those fields get the same spike-test outcome —
in particular step 1 of `process`, which only touches the warning state,
cannot change it. -/
theorem triggerOf_congr (m m' : StatusMonitor) (x : FVal)
    (hh : m'.history = m.history) (hm : m'.spike_mode = m.spike_mode)
    (ht : m'.spike_threshold = m.spike_threshold)
    (hp : m'.spike_percent = m.spike_percent) :
    triggerOf m' x = triggerOf m x := by
  simp only [triggerOf, hh, hm, ht, hp]

/-- Helper: in percent mode with `spike_percent = 50` and a history of at
least 2 samples averaging exactly 10, the sample 16 (60 % above baseline)
triggers PEAK: the returned status and stored state are PEAK and the hold
expiry is set to `now + hold_time`, overwriting any previous expiry,
whatever the previous warning state was. -/
theorem percent_spike_triggers_peak (m : StatusMonitor) (now : ℚ)
    (hen : m.enabled = true) (hrun : m.is_running = true)
    (hmode : m.spike_mode = SpikeMode.percent) (hpct : m.spike_percent = 50)
    (hlen : 2 ≤ m.history.length)
    (hsum : fsum m.history = FVal.num (10 * m.history.length))
    (hzt : m.zero_threshold ≤ 16) :
    (m.process now (FVal.num 16)).1 = WState.PEAK ∧
    (m.process now (FVal.num 16)).2.warning_state = WState.PEAK ∧
    (m.process now (FVal.num 16)).2.warning_end_time = now + m.hold_time := by
  have hlen0 : ((m.history.length : ℚ)) ≠ 0 := by
    have h0 : (0 : ℕ) < m.history.length := by omega
    exact_mod_cast h0.ne'
  have havg : fdivF (fsum m.history) (FVal.num m.history.length) = FVal.num 10 := by
    rw [hsum, fdivF]
    rw [if_neg hlen0]
    congr 1
    field_simp
  have habs : fabs (FVal.num 16) = FVal.num 16 := by norm_num [fabs]
  have htr : triggerOf m (FVal.num 16) = some WState.PEAK := by
    simp only [triggerOf, hmode, havg, hpct]
    norm_num [fsub, fneg, fadd, fdivF, fmulQ, fgt]
  have htrA : ∀ m' : StatusMonitor, m'.history = m.history →
      m'.spike_mode = m.spike_mode → m'.spike_threshold = m.spike_threshold →
      m'.spike_percent = m.spike_percent →
      triggerOf m' (FVal.num 16) = some WState.PEAK :=
    fun m' hh hm ht hp => (triggerOf_congr m m' _ hh hm ht hp).trans htr
  have hz : flt (FVal.num 16) m.zero_threshold = false := by
    simp only [flt, decide_eq_false_iff_not]
    exact not_lt.mpr hzt
  have hnl : ¬ m.history.length < 2 := not_lt.mpr hlen
  refine ⟨?_, ?_, ?_⟩ <;>
    simp [StatusMonitor.process, hen, hrun, habs, hz, hnl, htrA]

/-- Helper: while a held PEAK has not expired (`now ≤ warning_end_time`), a
non-zero, non-triggering sample returns PEAK and leaves the expiry
unchanged. -/
theorem held_peak_persists (m : StatusMonitor) (now : ℚ) (v : FVal)
    (hen : m.enabled = true) (hrun : m.is_running = true)
    (hw : m.warning_state = WState.PEAK)
    (hhold : now ≤ m.warning_end_time)
    (hz : flt (fabs v) m.zero_threshold = false)
    (htrig : triggerOf m (fabs v) = none) :
    (m.process now v).1 = WState.PEAK ∧
    (m.process now v).2.warning_end_time = m.warning_end_time := by
  have hnl : ¬ m.warning_end_time < now := not_lt.mpr hhold
  have htrigA : ∀ m' : StatusMonitor, m'.history = m.history →
      m'.spike_mode = m.spike_mode → m'.spike_threshold = m.spike_threshold →
      m'.spike_percent = m.spike_percent →
      triggerOf m' (fabs v) = none :=
    fun m' hh hm ht hp => (triggerOf_congr m m' _ hh hm ht hp).trans htrig
  by_cases hlen : m.history.length < 2
  · constructor <;>
      simp [StatusMonitor.process, hen, hrun, hw, hnl, hz, hlen]
  · constructor <;>
      simp [StatusMonitor.process, hen, hrun, hw, hnl, hz, hlen, htrigA]

/-- Helper: once a held PEAK has expired (`now > warning_end_time`), the
next non-zero, non-triggering sample over an established history (≥ 2
entries) reverts the monitor to RUN. -/
theorem held_peak_expires_to_run (m : StatusMonitor) (now : ℚ) (v : FVal)
    (hen : m.enabled = true) (hrun : m.is_running = true)
    (hw : m.warning_state = WState.PEAK)
    (hexp : m.warning_end_time < now)
    (hz : flt (fabs v) m.zero_threshold = false)
    (htrig : triggerOf m (fabs v) = none)
    (hlen : 2 ≤ m.history.length) :
    (m.process now v).1 = WState.RUN := by
  have hnl : ¬ m.history.length < 2 := not_lt.mpr hlen
  have htrigA : ∀ m' : StatusMonitor, m'.history = m.history →
      m'.spike_mode = m.spike_mode → m'.spike_threshold = m.spike_threshold →
      m'.spike_percent = m.spike_percent →
      triggerOf m' (fabs v) = none :=
    fun m' hh hm ht hp => (triggerOf_congr m m' _ hh hm ht hp).trans htrig
  simp [StatusMonitor.process, hen, hrun, hw, hexp, hz, hnl, htrigA]

/-- C4: in percent mode with `spike_percent = 50`, over a stable baseline of
10.0 a sample of 16.0 (60 % above baseline) returns PEAK and sets the
warning expiry to `now + hold_seconds` (overwriting any existing hold, from
any prior state); while `now ≤ expiry` every nominal (non-zero,
non-triggering) sample keeps returning the held PEAK with the expiry
unchanged; and the first nominal sample evaluated with `now > expiry`
returns RUN. -/
theorem peak_hold_expiry_cycle :
    (∀ (m : StatusMonitor) (now : ℚ),
        m.enabled = true → m.is_running = true →
        m.spike_mode = SpikeMode.percent → m.spike_percent = 50 →
        2 ≤ m.history.length →
        fsum m.history = FVal.num (10 * m.history.length) →
        m.zero_threshold ≤ 16 →
        (m.process now (FVal.num 16)).1 = WState.PEAK ∧
        (m.process now (FVal.num 16)).2.warning_state = WState.PEAK ∧
        (m.process now (FVal.num 16)).2.warning_end_time = now + m.hold_time) ∧
    (∀ (m : StatusMonitor) (now : ℚ) (v : FVal),
        m.enabled = true → m.is_running = true →
        m.warning_state = WState.PEAK → now ≤ m.warning_end_time →
        flt (fabs v) m.zero_threshold = false → triggerOf m (fabs v) = none →
        (m.process now v).1 = WState.PEAK ∧
        (m.process now v).2.warning_end_time = m.warning_end_time) ∧
    (∀ (m : StatusMonitor) (now : ℚ) (v : FVal),
        m.enabled = true → m.is_running = true →
        m.warning_state = WState.PEAK → m.warning_end_time < now →
        flt (fabs v) m.zero_threshold = false → triggerOf m (fabs v) = none →
        2 ≤ m.history.length →
        (m.process now v).1 = WState.RUN) :=
  ⟨fun m now hen hrun hmode hpct hlen hsum hzt =>
     percent_spike_triggers_peak m now hen hrun hmode hpct hlen hsum hzt,
   fun m now v hen hrun hw hhold hz htrig =>
     held_peak_persists m now v hen hrun hw hhold hz htrig,
   fun m now v hen hrun hw hexp hz htrig hlen =>
     held_peak_expires_to_run m now v hen hrun hw hexp hz htrig hlen⟩

/-- Witness for C4: the three phases evaluated on concrete monitors — the
stable-baseline monitor spikes to PEAK at 16.0; the held monitor still
reports PEAK for a nominal 10.0 at time 5 (expiry 10); the same monitor
reports RUN for a nominal 10.0 at time 11. -/
theorem peak_hold_expiry_cycle_witness :
    (mZeroDemo.process 0 (FVal.num 16)).1 = WState.PEAK ∧
    (mHeldDemo.process 5 (FVal.num 10)).1 = WState.PEAK ∧
    (mHeldDemo.process 11 (FVal.num 10)).1 = WState.RUN :=
  ⟨(peak_hold_expiry_cycle.1 mZeroDemo 0 rfl rfl rfl rfl
      (by norm_num [mZeroDemo, StatusMonitor.init])
      (by norm_num [mZeroDemo, StatusMonitor.init, fsum, fadd])
      (by norm_num [mZeroDemo, StatusMonitor.init])).1,
   (peak_hold_expiry_cycle.2.1 mHeldDemo 5 (FVal.num 10) rfl rfl rfl
      (by norm_num [mHeldDemo, mZeroDemo, StatusMonitor.init])
      (by norm_num [mHeldDemo, mZeroDemo, StatusMonitor.init, flt, fabs])
      (by norm_num [mHeldDemo, mZeroDemo, StatusMonitor.init, triggerOf, fsum,
        fadd, fsub, fneg, fdivF, fmulQ, fgt, flt, fabs])).1,
   peak_hold_expiry_cycle.2.2 mHeldDemo 11 (FVal.num 10) rfl rfl rfl
     (by norm_num [mHeldDemo, mZeroDemo, StatusMonitor.init])
     (by norm_num [mHeldDemo, mZeroDemo, StatusMonitor.init, flt, fabs])
     (by norm_num [mHeldDemo, mZeroDemo, StatusMonitor.init, triggerOf, fsum,
       fadd, fsub, fneg, fdivF, fmulQ, fgt, flt, fabs])
     (by norm_num [mHeldDemo, mZeroDemo, StatusMonitor.init])⟩

/-- Witness for C9 amended: the capacity formula applied to the default
monitor at a 300 ms interval. -/
theorem window_capacity_floor_resize_amended_witness :
    ((StatusMonitor.init).update_params 300).hmaxlen =
      some (max 1 (Int.toNat ⌊StatusMonitor.init.window_seconds / ((300 : ℚ) / 1000)⌋)) :=
  (window_capacity_floor_resize_amended.1 StatusMonitor.init 300 (by norm_num)
    (by norm_num [StatusMonitor.init])).1
